import Mathlib

/-!
Verification of the food-ordering business-logic core of the
MobileFoodDeliveryApp repository: payment processing (from
`testPayment_Processing.py`) and the cart / order-placement flow.

Python dictionaries are embedded as structures over the keys the code
reads; a value of `Option String` is `none` when the key is absent.
Monetary amounts are embedded as rationals (`Rat`): the payment code
never computes with the amount, it only threads it through, and the
cart code only adds and multiplies, so `Rat` is an exact model.
A Python function that can raise is embedded as returning `Option` /
`Except`, with `none` / `.error` marking the raised exception.
-/

/-- The payment details dictionary: the code reads only the keys
`card_number`, `expiry_date` and `cvv`; `none` models an absent key. -/
structure PaymentDetails where
  card_number : Option String
  expiry_date : Option String
  cvv : Option String
deriving DecidableEq, Repr

/-- The order dictionary: the payment code reads only `total_amount`
(via `order.get("total_amount", 0)`); `none` models an absent key. -/
structure Order where
  total_amount : Option Rat
deriving DecidableEq, Repr

/-- The dictionary returned by a gateway's `process`: a `status`
string, an optional `message` and an optional `transaction_id`. -/
structure GatewayResponse where
  status : String
  message : Option String
  transaction_id : Option String
deriving DecidableEq, Repr

/-- A payment gateway is anything exposing
`process(payment_method, payment_details, amount)`. -/
def Gateway : Type := String → PaymentDetails → Rat → GatewayResponse

/-- `FakePaymentGateway.process` from `testPayment_Processing.py`:
declines card number `1111222233334444` for `credit_card`, succeeds on
any other `credit_card` and on `paypal`, and reports an unsupported
method otherwise.  The amount is ignored. -/
def FakePaymentGateway : Gateway := fun payment_method payment_details _amount =>
  if payment_method = "credit_card" then
    if payment_details.card_number = some "1111222233334444" then
      ⟨"failure", some "Card declined", none⟩
    else
      ⟨"success", none, some "fake_txn_123"⟩
  else if payment_method = "paypal" then
    ⟨"success", none, some "fake_txn_456"⟩
  else
    ⟨"failure", some "Unsupported payment method", none⟩

/-- `self.available_gateways` set in `PaymentProcessing.__init__`. -/
def available_gateways : List String := ["credit_card", "paypal"]

/-- `PaymentProcessing.validate_credit_card`: each of the three
required fields must be present and truthy (a missing key or an empty
string fails), the card number must have length 16 and the CVV
length 3. -/
def validate_credit_card (details : PaymentDetails) : Bool :=
  if details.card_number = none ∨ details.card_number = some "" then false
  else if details.expiry_date = none ∨ details.expiry_date = some "" then false
  else if details.cvv = none ∨ details.cvv = some "" then false
  else
    let card_number := details.card_number.getD ""
    let cvv := details.cvv.getD ""
    if card_number.length ≠ 16 ∨ cvv.length ≠ 3 then false
    else true

/-- `PaymentProcessing.validate_payment_method`: raises
`ValueError("Invalid payment method")` on an unsupported method,
raises `ValueError("Invalid credit card details")` when the method is
`credit_card` and the details fail `validate_credit_card`, and returns
`True` otherwise.  A raised `ValueError` is embedded as
`Except.error` carrying the exception's message. -/
def validate_payment_method (payment_method : String) (payment_details : PaymentDetails) :
    Except String Bool :=
  if ¬ (payment_method ∈ available_gateways) then
    Except.error "Invalid payment method"
  else if payment_method = "credit_card" ∧ ¬ (validate_credit_card payment_details) then
    Except.error "Invalid credit card details"
  else
    Except.ok true

/-- `PaymentProcessing.process_payment`: returns the invalid-method
error string without contacting the gateway when the method is
unsupported, otherwise calls `gateway.process` with the amount
`order.get("total_amount", 0)` and maps the response.  The result is
`none` exactly when the Python code would raise (the `KeyError` from
`response['message']` when a non-success response lacks `message`). -/
def process_payment (gateway : Gateway) (order : Order) (payment_method : String)
    (payment_details : PaymentDetails) : Option String :=
  if ¬ (payment_method ∈ available_gateways) then
    some "Error: Invalid payment method"
  else
    let response := gateway payment_method payment_details (order.total_amount.getD 0)
    if response.status = "success" then
      some "Payment successful, Order confirmed"
    else
      match response.message with
      | some m => some ("Payment failed: " ++ m)
      | none => none

/-- One call made to a gateway's `process` capability. -/
structure GatewayCall where
  payment_method : String
  payment_details : PaymentDetails
  amount : Rat
deriving DecidableEq, Repr

/-- The sequence of gateway calls `process_payment` performs: none on
the early invalid-method return, exactly one — with the amount read
from the order — on every other path (the body of
`PaymentProcessing.process_payment` evaluates
`self.gateway.process(...)` exactly once). -/
def process_payment_calls (order : Order) (payment_method : String)
    (payment_details : PaymentDetails) : List GatewayCall :=
  if ¬ (payment_method ∈ available_gateways) then []
  else [⟨payment_method, payment_details, order.total_amount.getD 0⟩]

/-- Substring test used to state "the message contains `pat`":
`listStartsWith pat s` is true when `pat` is an initial segment of `s`. -/
def listStartsWith : List Char → List Char → Bool
  | [], _ => true
  | _ :: _, [] => false
  | a :: as, b :: bs => a = b && listStartsWith as bs

/-- `strContainsAux pat s` is true when `pat` occurs contiguously in `s`. -/
def strContainsAux (pat : List Char) : List Char → Bool
  | [] => listStartsWith pat []
  | c :: cs => listStartsWith pat (c :: cs) || strContainsAux pat cs

/-- `strContains s pat` is true when `pat` occurs as a contiguous
substring of `s`. -/
def strContains (s pat : String) : Bool :=
  strContainsAux pat.toList s.toList

/-- Modelled from the spec: `CartLine` of the missing
`testOrder_Placement.py` module — one cart entry
`{name, unit_price, quantity}` with derived
`subtotal = unit_price * quantity`. -/
structure CartLine where
  name : String
  unit_price : Rat
  quantity : Nat
deriving DecidableEq, Repr

/-- Derived line subtotal `unit_price * quantity`. -/
def CartLine.line_subtotal (l : CartLine) : Rat :=
  l.unit_price * (l.quantity : Rat)

/-- Modelled from the spec: the `Cart` of the missing
`testOrder_Placement.py` module — an ordered collection of lines, no
two of which share a name. -/
structure Cart where
  items : List CartLine
deriving DecidableEq, Repr

/-- Cart subtotal: sum of all line subtotals (0 when empty). -/
def Cart.subtotal (c : Cart) : Rat :=
  (c.items.map CartLine.line_subtotal).sum

/-- Modelled from the spec: the line-merging step of
`Cart.add_item` of the missing `testOrder_Placement.py` module — if
`name` already has a line its quantity is incremented by `quantity`
and its price is replaced by the latest `unit_price`
(last-write-wins); otherwise a new line is appended. -/
def addItemLines (name : String) (unit_price : Rat) (quantity : Nat) :
    List CartLine → List CartLine
  | [] => [⟨name, unit_price, quantity⟩]
  | l :: ls =>
    if l.name = name then ⟨l.name, unit_price, l.quantity + quantity⟩ :: ls
    else l :: addItemLines name unit_price quantity ls

/-- Modelled from the spec: `Cart.add_item` of the missing
`testOrder_Placement.py` module (state change only; the confirmation
message it returns carries no state). -/
def Cart.add_item (c : Cart) (name : String) (unit_price : Rat) (quantity : Nat) : Cart :=
  ⟨addItemLines name unit_price quantity c.items⟩

/-- Modelled from the spec: `Cart.remove_item` of the missing
`testOrder_Placement.py` module — removes the line with that name if
present, no-op otherwise. -/
def Cart.remove_item (c : Cart) (name : String) : Cart :=
  ⟨c.items.filter (fun l => l.name ≠ name)⟩

/-- Modelled from the spec: an `OrderRecord` of the missing
`testOrder_Placement.py` module — `{order_id, items, total}`, created
only by a successful `confirm_order`. -/
structure OrderRecord where
  order_id : String
  items : List String
  total : Rat
deriving DecidableEq, Repr

/-- Modelled from the spec: `UserProfile` of the missing
`testOrder_Placement.py` module — a delivery address and an
append-only order history. -/
structure UserProfile where
  delivery_address : String
  order_history : List OrderRecord
deriving DecidableEq, Repr

/-- Modelled from the spec: `RestaurantMenu` of the missing
`testOrder_Placement.py` module — a read-only list of item names. -/
structure RestaurantMenu where
  available_items : List String
deriving DecidableEq, Repr

/-- Modelled from the spec: `PaymentMethod` of the missing
`testOrder_Placement.py` module — an opaque value marker with no
required fields. -/
inductive PaymentMethod where
  | mk : PaymentMethod
deriving DecidableEq, Repr

/-- Modelled from the spec: `OrderPlacement` of the missing
`testOrder_Placement.py` module — binds one cart, one user profile and
one menu, plus free-text special instructions. -/
structure OrderPlacement where
  cart : Cart
  user_profile : UserProfile
  menu : RestaurantMenu
  special_instructions : String
deriving DecidableEq, Repr

/-- A `{success, message}` result dictionary. -/
structure VResult where
  success : Bool
  message : String
deriving DecidableEq, Repr

/-- Modelled from the spec: `OrderPlacement.validate_order` of the
missing `testOrder_Placement.py` module — fails when the cart has zero
lines, fails when the delivery address is empty, succeeds otherwise. -/
def OrderPlacement.validate_order (op : OrderPlacement) : VResult :=
  if op.cart.items = [] then ⟨false, "Cart is empty"⟩
  else if op.user_profile.delivery_address = "" then ⟨false, "Invalid delivery address"⟩
  else ⟨true, "Order is valid"⟩

/-- The `{subtotal, tax, delivery_fee, total}` totals dictionary. -/
structure TotalsBreakdown where
  subtotal : Rat
  tax : Rat
  delivery_fee : Rat
  total : Rat
deriving DecidableEq, Repr

/-- The `{items, total_info, delivery_address}` checkout summary. -/
structure CheckoutData where
  items : List CartLine
  total_info : TotalsBreakdown
  delivery_address : String
deriving DecidableEq, Repr

/-- Modelled from the spec: `OrderPlacement.proceed_to_checkout` of
the missing `testOrder_Placement.py` module — computes the totals from
the cart's current subtotal with a fixed tax rate and a flat delivery
fee (the exact policy constants are configuration, so they are
parameters here), with `total = subtotal + tax + delivery_fee`. -/
def OrderPlacement.proceed_to_checkout (tax_rate delivery_fee : Rat) (op : OrderPlacement) :
    CheckoutData :=
  let st := op.cart.subtotal
  ⟨op.cart.items, ⟨st, tax_rate * st, delivery_fee, st + tax_rate * st + delivery_fee⟩,
    op.user_profile.delivery_address⟩

/-- The result dictionary of `confirm_order`: `success`, and on
success an `order_id`, an `estimated_delivery` and the message
`"Order confirmed"`. -/
structure ConfirmResult where
  success : Bool
  order_id : Option String
  estimated_delivery : Option String
  message : String
deriving DecidableEq, Repr

/-- Modelled from the spec: `OrderPlacement.confirm_order` of the
missing `testOrder_Placement.py` module, minimal flow (no
`PaymentProcessing` collaborator wired in, payment authorized by
default) — re-validates the order, fails cleanly with
`{success: false, message}` when invalid, and otherwise returns
`{success: true, order_id, estimated_delivery, "Order confirmed"}` and
appends one `OrderRecord` to the profile's order history.  The
generated order id and the policy-computed estimated delivery time are
parameters (`gen_id`, `est`).  Returns the result together with the
updated `UserProfile`. -/
def OrderPlacement.confirm_order (gen_id est : String) (op : OrderPlacement)
    (_payment_method : PaymentMethod) : ConfirmResult × UserProfile :=
  let v := op.validate_order
  if v.success then
    let record : OrderRecord := ⟨gen_id, op.cart.items.map CartLine.name, op.cart.subtotal⟩
    (⟨true, some gen_id, some est, "Order confirmed"⟩,
      ⟨op.user_profile.delivery_address, op.user_profile.order_history ++ [record]⟩)
  else
    (⟨false, none, none, v.message⟩, op.user_profile)

/-- End-to-end scenario 3 of the spec, evaluated on the embedding:
a declined card yields "Payment failed: Card declined". -/
theorem scenario3_declined_card :
    process_payment FakePaymentGateway ⟨some 100⟩ "credit_card"
      ⟨some "1111222233334444", some "12/25", some "123"⟩ =
      some "Payment failed: Card declined" := by
  decide

/-- End-to-end scenario 4 of the spec, evaluated on the embedding:
an unsupported method yields the invalid-method error. -/
theorem scenario4_invalid_method :
    process_payment FakePaymentGateway ⟨some 50⟩ "bitcoin" ⟨none, none, none⟩ =
      some "Error: Invalid payment method" := by
  decide

/-- Claim C1: with the default `FakePaymentGateway`, for every order
and details, `process_payment(order, "credit_card", details)` returns
a failure message containing "Card declined" if and only if the
details' card number equals `"1111222233334444"`; for any other card
number (in particular any other 16-digit one) it returns the success
message, and for method `"paypal"` it returns the success message
unconditionally. -/
theorem C1_fake_gateway_decline (order : Order) (details : PaymentDetails) :
    ((∃ r, process_payment FakePaymentGateway order "credit_card" details = some r ∧
        strContains r "Card declined" = true) ↔
      details.card_number = some "1111222233334444") ∧
    (details.card_number = some "1111222233334444" →
      process_payment FakePaymentGateway order "credit_card" details =
        some "Payment failed: Card declined") ∧
    (details.card_number ≠ some "1111222233334444" →
      process_payment FakePaymentGateway order "credit_card" details =
        some "Payment successful, Order confirmed") ∧
    process_payment FakePaymentGateway order "paypal" details =
      some "Payment successful, Order confirmed" := by
  by_cases h : details.card_number = some "1111222233334444" <;>
    simp [process_payment, FakePaymentGateway, available_gateways, h] <;>
    decide

/-- Witness for C1 at a concrete order and concrete 16-digit card. -/
theorem C1_fake_gateway_decline_witness :
    process_payment FakePaymentGateway ⟨some 100⟩ "credit_card"
      ⟨some "1234567812345678", some "12/25", some "123"⟩ =
      some "Payment successful, Order confirmed" :=
  (C1_fake_gateway_decline ⟨some 100⟩
    ⟨some "1234567812345678", some "12/25", some "123"⟩).2.2.1 (by decide)

/-- Claim C2: for every gateway, order, method and details, an
unsupported method yields "Error: Invalid payment method" with no
gateway call; otherwise the gateway is called exactly once with the
amount read from the order's total, a "success" status maps to the
success message, and any other status maps to "Payment failed: "
followed by the gateway's reported message. -/
theorem C2_process_payment_delegation (gateway : Gateway) (order : Order)
    (payment_method : String) (payment_details : PaymentDetails) :
    (¬ payment_method ∈ available_gateways →
      process_payment gateway order payment_method payment_details =
        some "Error: Invalid payment method" ∧
      process_payment_calls order payment_method payment_details = []) ∧
    (payment_method ∈ available_gateways →
      process_payment_calls order payment_method payment_details =
        [⟨payment_method, payment_details, order.total_amount.getD 0⟩] ∧
      ((gateway payment_method payment_details (order.total_amount.getD 0)).status = "success" →
        process_payment gateway order payment_method payment_details =
          some "Payment successful, Order confirmed") ∧
      (∀ m, (gateway payment_method payment_details (order.total_amount.getD 0)).status ≠ "success" →
        (gateway payment_method payment_details (order.total_amount.getD 0)).message = some m →
        process_payment gateway order payment_method payment_details =
          some ("Payment failed: " ++ m))) := by
  by_cases hmem : payment_method ∈ available_gateways
  · refine ⟨fun h => absurd hmem h, fun _ => ⟨?_, ?_, ?_⟩⟩
    · simp [process_payment_calls, hmem]
    · intro hs
      simp [process_payment, hmem, hs]
    · intro m hs hm
      simp [process_payment, hmem, hs, hm]
  · refine ⟨fun _ => ⟨?_, ?_⟩, fun h => absurd h hmem⟩
    · simp [process_payment, hmem]
    · simp [process_payment_calls, hmem]

/-- Witness for C2 at the default gateway, a declined card and a
concrete order. -/
theorem C2_process_payment_delegation_witness :
    process_payment FakePaymentGateway ⟨some 100⟩ "credit_card"
      ⟨some "1111222233334444", some "12/25", some "123"⟩ =
      some ("Payment failed: " ++ "Card declined") :=
  ((C2_process_payment_delegation FakePaymentGateway ⟨some 100⟩ "credit_card"
    ⟨some "1111222233334444", some "12/25", some "123"⟩).2 (by decide)).2.2
    "Card declined" (by decide) (by decide)

/-- Claim C4: `validate_payment_method` raises the invalid-method
error for unsupported methods, raises the invalid-card error when the
method is `credit_card` and the details fail `validate_credit_card`,
and returns `True` exactly when fully valid. -/
theorem C4_validate_payment_method_spec (payment_method : String)
    (payment_details : PaymentDetails) :
    (¬ payment_method ∈ available_gateways →
      validate_payment_method payment_method payment_details =
        Except.error "Invalid payment method") ∧
    (payment_method = "credit_card" → validate_credit_card payment_details = false →
      validate_payment_method payment_method payment_details =
        Except.error "Invalid credit card details") ∧
    (validate_payment_method payment_method payment_details = Except.ok true ↔
      (payment_method ∈ available_gateways ∧
        (payment_method = "credit_card" → validate_credit_card payment_details = true))) := by
  refine ⟨fun h => by simp [validate_payment_method, h], fun hcc hval => ?_, ?_⟩
  · subst hcc
    simp [validate_payment_method, available_gateways, hval]
  · by_cases hmem : payment_method ∈ available_gateways
    · by_cases hcc : payment_method = "credit_card"
      · subst hcc
        by_cases hval : validate_credit_card payment_details = true
        · simp [validate_payment_method, available_gateways, hval]
        · have hv : validate_credit_card payment_details = false := by
            simpa using hval
          simp [validate_payment_method, available_gateways, hv]
      · simp [validate_payment_method, hmem, hcc]
    · simp [validate_payment_method, hmem]

/-- Witness for C4 at an unsupported method. -/
theorem C4_validate_payment_method_spec_witness :
    validate_payment_method "bitcoin" ⟨none, none, none⟩ =
      Except.error "Invalid payment method" :=
  (C4_validate_payment_method_spec "bitcoin" ⟨none, none, none⟩).1 (by decide)

/-- Claim C9: `process_payment` performs no validation of the payment
details — the details `{card_number: "1234567812345678"}` (no expiry,
no CVV) fail `validate_credit_card`, yet for every order
`process_payment(order, "credit_card", ...)` with the default
`FakePaymentGateway` still returns the success message. -/
theorem C9_process_payment_skips_validation (order : Order) :
    validate_credit_card ⟨some "1234567812345678", none, none⟩ = false ∧
    process_payment FakePaymentGateway order "credit_card"
      ⟨some "1234567812345678", none, none⟩ =
      some "Payment successful, Order confirmed" := by
  constructor
  · decide
  · simp [process_payment, FakePaymentGateway, available_gateways]

/-- Claim C10: for every order without a `total_amount` key and every
supported method, `process_payment` charges amount 0 (the default of
`order.get("total_amount", 0)`) and, with the default gateway, returns
a normal result string rather than raising. -/
theorem C10_missing_total_defaults_to_zero (order : Order) (payment_method : String)
    (payment_details : PaymentDetails) (h0 : order.total_amount = none)
    (hmem : payment_method ∈ available_gateways) :
    process_payment_calls order payment_method payment_details =
      [⟨payment_method, payment_details, 0⟩] ∧
    (process_payment FakePaymentGateway order payment_method payment_details).isSome = true := by
  constructor
  · simp [process_payment_calls, hmem, h0]
  · have hm : payment_method = "credit_card" ∨ payment_method = "paypal" := by
      simpa [available_gateways] using hmem
    rcases hm with hcc | hpp
    · subst hcc
      by_cases h : payment_details.card_number = some "1111222233334444" <;>
        simp [process_payment, FakePaymentGateway, available_gateways, h]
    · subst hpp
      simp [process_payment, FakePaymentGateway, available_gateways]

/-- Witness for C10 at an order lacking `total_amount` and the
`paypal` method. -/
theorem C10_missing_total_defaults_to_zero_witness :
    process_payment_calls ⟨none⟩ "paypal" ⟨none, none, none⟩ =
      [⟨"paypal", ⟨none, none, none⟩, 0⟩] ∧
    (process_payment FakePaymentGateway ⟨none⟩ "paypal" ⟨none, none, none⟩).isSome = true :=
  C10_missing_total_defaults_to_zero ⟨none⟩ "paypal" ⟨none, none, none⟩ rfl (by decide)

/-- Counterexample to claim C3 as stated: in the details
`{card_number: "1234567812345678", expiry_date: "", cvv: "123"}` all
three fields are present, the card number has length 16 and the CVV
length 3, so the claim predicts `True`; yet `validate_credit_card`
returns `False`, because the code also rejects a present-but-empty
(falsy) field value. -/
theorem C3_counterexample_empty_expiry :
    validate_credit_card ⟨some "1234567812345678", some "", some "123"⟩ = false ∧
    (PaymentDetails.mk (some "1234567812345678") (some "") (some "123")).card_number.isSome =
      true ∧
    (PaymentDetails.mk (some "1234567812345678") (some "") (some "123")).expiry_date.isSome =
      true ∧
    (PaymentDetails.mk (some "1234567812345678") (some "") (some "123")).cvv.isSome = true ∧
    ((PaymentDetails.mk (some "1234567812345678") (some "") (some "123")).card_number.getD
      "").length = 16 ∧
    ((PaymentDetails.mk (some "1234567812345678") (some "") (some "123")).cvv.getD
      "").length = 3 := by
  decide

/-- Claim C3 (amended): `validate_credit_card(details)` returns `False`
when any of the fields `card_number`, `expiry_date`, `cvv` is absent or
empty, or when the card number's length is not 16 or the CVV's length
is not 3; and it returns `True` otherwise. -/
theorem C3_validate_credit_card_amended (details : PaymentDetails) :
    validate_credit_card details = true ↔
      ((details.card_number.getD "").length = 16 ∧
        details.expiry_date ≠ none ∧ details.expiry_date ≠ some "" ∧
        (details.cvv.getD "").length = 3) := by
  obtain ⟨c, e, v⟩ := details
  cases c with
  | none => simp [validate_credit_card]
  | some cs =>
    cases e with
    | none => simp [validate_credit_card]
    | some es =>
      cases v with
      | none => simp [validate_credit_card]
      | some vs =>
        by_cases hc : cs = ""
        · subst hc
          simp [validate_credit_card]
        · by_cases he : es = ""
          · subst he
            simp [validate_credit_card, hc]
          · by_cases hv : vs = ""
            · subst hv
              simp [validate_credit_card, hc, he]
            · by_cases hlc : cs.length = 16 <;> by_cases hlv : vs.length = 3 <;>
                simp [validate_credit_card, hc, he, hv, hlc, hlv]

/-- Claim C5 (spec-modelled): for every order placement with a
non-empty cart and a non-empty delivery address, `confirm_order` in
the minimal flow succeeds, returning success, an order id, an
estimated delivery and the message "Order confirmed", and appends
exactly one `OrderRecord` to the profile's order history. -/
theorem C5_confirm_order_minimal_flow (op : OrderPlacement) (pm : PaymentMethod)
    (gen_id est : String) (hc : op.cart.items ≠ [])
    (ha : op.user_profile.delivery_address ≠ "") :
    (op.confirm_order gen_id est pm).1.success = true ∧
    (op.confirm_order gen_id est pm).1.order_id = some gen_id ∧
    (op.confirm_order gen_id est pm).1.estimated_delivery = some est ∧
    (op.confirm_order gen_id est pm).1.message = "Order confirmed" ∧
    (op.confirm_order gen_id est pm).2.order_history =
      op.user_profile.order_history ++
        [⟨gen_id, op.cart.items.map CartLine.name, op.cart.subtotal⟩] := by
  simp [OrderPlacement.confirm_order, OrderPlacement.validate_order, hc, ha]

/-- Witness for C5 at a concrete one-line cart and address. -/
theorem C5_confirm_order_minimal_flow_witness :
    ((OrderPlacement.mk ⟨[⟨"Pizza", 10, 2⟩]⟩ ⟨"123 Elm St", []⟩ ⟨["Pizza", "Burger"]⟩
      "").confirm_order "ORD1" "16:40" PaymentMethod.mk).1.success = true :=
  (C5_confirm_order_minimal_flow
    (OrderPlacement.mk ⟨[⟨"Pizza", 10, 2⟩]⟩ ⟨"123 Elm St", []⟩ ⟨["Pizza", "Burger"]⟩ "")
    PaymentMethod.mk "ORD1" "16:40" (by decide) (by decide)).1

/-- Claim C6 (spec-modelled): for non-negative policy constants and a
cart with non-negative subtotal, the `TotalsBreakdown` produced by
`proceed_to_checkout` satisfies `total = subtotal + tax + delivery_fee`
exactly, all four components are non-negative, and the breakdown is a
deterministic pure function of the subtotal. -/
theorem C6_totals_breakdown (tax_rate delivery_fee : Rat) (op : OrderPlacement)
    (htr : 0 ≤ tax_rate) (hdf : 0 ≤ delivery_fee) (hs : 0 ≤ op.cart.subtotal) :
    (op.proceed_to_checkout tax_rate delivery_fee).total_info.total =
      (op.proceed_to_checkout tax_rate delivery_fee).total_info.subtotal +
        (op.proceed_to_checkout tax_rate delivery_fee).total_info.tax +
        (op.proceed_to_checkout tax_rate delivery_fee).total_info.delivery_fee ∧
    0 ≤ (op.proceed_to_checkout tax_rate delivery_fee).total_info.subtotal ∧
    0 ≤ (op.proceed_to_checkout tax_rate delivery_fee).total_info.tax ∧
    0 ≤ (op.proceed_to_checkout tax_rate delivery_fee).total_info.delivery_fee ∧
    0 ≤ (op.proceed_to_checkout tax_rate delivery_fee).total_info.total ∧
    (op.proceed_to_checkout tax_rate delivery_fee).total_info.subtotal = op.cart.subtotal ∧
    (∀ op2 : OrderPlacement, op2.cart.subtotal = op.cart.subtotal →
      (op2.proceed_to_checkout tax_rate delivery_fee).total_info =
        (op.proceed_to_checkout tax_rate delivery_fee).total_info) := by
  refine ⟨rfl, hs, mul_nonneg htr hs, hdf, ?_, rfl, ?_⟩
  · exact add_nonneg (add_nonneg hs (mul_nonneg htr hs)) hdf
  · intro op2 h2
    simp [OrderPlacement.proceed_to_checkout, h2]

/-- Witness for C6 at tax rate 8/100, delivery fee 5 and a concrete
cart of subtotal 16. -/
theorem C6_totals_breakdown_witness :
    ((OrderPlacement.mk ⟨[⟨"Burger", 8, 2⟩]⟩ ⟨"123 Main St", []⟩ ⟨["Burger"]⟩
        "").proceed_to_checkout (8 / 100) 5).total_info.total =
      ((OrderPlacement.mk ⟨[⟨"Burger", 8, 2⟩]⟩ ⟨"123 Main St", []⟩ ⟨["Burger"]⟩
        "").proceed_to_checkout (8 / 100) 5).total_info.subtotal +
        ((OrderPlacement.mk ⟨[⟨"Burger", 8, 2⟩]⟩ ⟨"123 Main St", []⟩ ⟨["Burger"]⟩
          "").proceed_to_checkout (8 / 100) 5).total_info.tax +
        ((OrderPlacement.mk ⟨[⟨"Burger", 8, 2⟩]⟩ ⟨"123 Main St", []⟩ ⟨["Burger"]⟩
          "").proceed_to_checkout (8 / 100) 5).total_info.delivery_fee :=
  (C6_totals_breakdown (8 / 100) 5
    (OrderPlacement.mk ⟨[⟨"Burger", 8, 2⟩]⟩ ⟨"123 Main St", []⟩ ⟨["Burger"]⟩ "")
    (by norm_num) (by norm_num)
    (by norm_num [Cart.subtotal, CartLine.line_subtotal])).1

/-- Claim C7 (spec-modelled): `validate_order` fails exactly when the
cart has zero lines or the delivery address is empty — the cart being
empty fails it regardless of the address, the address being empty
fails it regardless of the cart — and succeeds otherwise. -/
theorem C7_validate_order_spec (op : OrderPlacement) :
    op.validate_order.success = false ↔
      (op.cart.items = [] ∨ op.user_profile.delivery_address = "") := by
  by_cases hc : op.cart.items = []
  · simp [OrderPlacement.validate_order, hc]
  · by_cases ha : op.user_profile.delivery_address = "" <;>
      simp [OrderPlacement.validate_order, hc, ha]

/-- Adding a name no existing line carries appends a fresh line. -/
theorem addItemLines_fresh (name : String) (p : Rat) (q : Nat) (l : List CartLine)
    (h : ∀ x ∈ l, x.name ≠ name) :
    addItemLines name p q l = l ++ [⟨name, p, q⟩] := by
  induction l with
  | nil => rfl
  | cons a as ih =>
    have ha : a.name ≠ name := h a (by simp)
    simp [addItemLines, ha, ih (fun x hx => h x (by simp [hx]))]

/-- Adding a name whose line sits last merges into that line:
last-write-wins for the price, quantities accumulate. -/
theorem addItemLines_last (name : String) (p : Rat) (q : Nat) (l : List CartLine)
    (p0 : Rat) (q0 : Nat) (h : ∀ x ∈ l, x.name ≠ name) :
    addItemLines name p q (l ++ [⟨name, p0, q0⟩]) = l ++ [⟨name, p, q0 + q⟩] := by
  induction l with
  | nil => simp [addItemLines]
  | cons a as ih =>
    have ha : a.name ≠ name := h a (by simp)
    simp [addItemLines, ha, ih (fun x hx => h x (by simp [hx]))]

/-- A sequence of `add_item` calls, all with the same `name`, given as
`(unit_price, quantity)` pairs and folded over the cart from the
left. -/
def foldAdds (name : String) (calls : List (Rat × Nat)) (c : Cart) : Cart :=
  calls.foldl (fun acc pq => acc.add_item name pq.1 pq.2) c

/-- Folding same-name `add_item` calls over a cart whose line for
`name` sits last keeps every other line unchanged and accumulates
quantity with last-write-wins price. -/
theorem foldAdds_last (name : String) (calls : List (Rat × Nat)) (l : List CartLine)
    (p0 : Rat) (q0 : Nat) (h : ∀ x ∈ l, x.name ≠ name) :
    (foldAdds name calls ⟨l ++ [⟨name, p0, q0⟩]⟩).items =
      l ++ [⟨name, (calls.map Prod.fst).getLastD p0, q0 + (calls.map Prod.snd).sum⟩] := by
  induction calls generalizing p0 q0 with
  | nil => simp [foldAdds]
  | cons pq rest ih =>
    have hstep : foldAdds name (pq :: rest) ⟨l ++ [⟨name, p0, q0⟩]⟩ =
        foldAdds name rest ⟨l ++ [⟨name, pq.1, q0 + pq.2⟩]⟩ := by
      simp [foldAdds, Cart.add_item, addItemLines_last name pq.1 pq.2 l p0 q0 h]
    rw [hstep, ih pq.1 (q0 + pq.2), List.map_cons, List.getLastD_cons, List.map_cons,
      List.sum_cons, ← Nat.add_assoc]

/-- Claim C8 (spec-modelled): for every non-empty sequence of
`add_item` calls with the same item name (each with positive quantity
and non-negative unit price) on a cart holding no line of that name,
the cart afterwards holds exactly one line for that name, whose
quantity is the sum of the added quantities and whose subtotal is the
unit price of the last call times that total quantity. -/
theorem C8_add_item_same_name (name : String) (c : Cart) (calls : List (Rat × Nat))
    (hne : calls ≠ []) (hfresh : ∀ x ∈ c.items, x.name ≠ name)
    (hq : ∀ pq ∈ calls, 0 < pq.2) (hp : ∀ pq ∈ calls, 0 ≤ pq.1) :
    ∃ line : CartLine,
      (foldAdds name calls c).items = c.items ++ [line] ∧
      line.name = name ∧
      line.quantity = (calls.map Prod.snd).sum ∧
      line.unit_price = (calls.map Prod.fst).getLastD 0 ∧
      line.line_subtotal =
        ((calls.map Prod.fst).getLastD 0) * (((calls.map Prod.snd).sum : Nat) : Rat) ∧
      (foldAdds name calls c).items.filter (fun x => x.name = name) = [line] := by
  obtain ⟨pq, rest, rfl⟩ : ∃ pq rest, calls = pq :: rest := by
    cases calls with
    | nil => exact absurd rfl hne
    | cons pq rest => exact ⟨pq, rest, rfl⟩
  have hstep : foldAdds name (pq :: rest) c =
      foldAdds name rest ⟨c.items ++ [⟨name, pq.1, pq.2⟩]⟩ := by
    simp [foldAdds, Cart.add_item, addItemLines_fresh name pq.1 pq.2 c.items hfresh]
  have hitems : (foldAdds name (pq :: rest) c).items =
      c.items ++ [⟨name, (rest.map Prod.fst).getLastD pq.1,
        pq.2 + (rest.map Prod.snd).sum⟩] := by
    rw [hstep, foldAdds_last name rest c.items pq.1 pq.2 hfresh]
  have hfil : c.items.filter (fun x => x.name = name) = [] :=
    List.filter_eq_nil_iff.mpr (fun a ha => by simp [hfresh a ha])
  refine ⟨⟨name, (rest.map Prod.fst).getLastD pq.1, pq.2 + (rest.map Prod.snd).sum⟩,
    hitems, rfl, by simp, ?_, ?_, ?_⟩
  · show (rest.map Prod.fst).getLastD pq.1 = ((pq :: rest).map Prod.fst).getLastD 0
    rw [List.map_cons, List.getLastD_cons]
  · show CartLine.line_subtotal _ =
      (((pq :: rest).map Prod.fst).getLastD 0) *
        ((((pq :: rest).map Prod.snd).sum : Nat) : Rat)
    rw [List.map_cons, List.getLastD_cons, List.map_cons, List.sum_cons]
    rfl
  · rw [hitems, List.filter_append, hfil]
    simp

/-- Witness for C8: two calls adding "Pizza" at price 10 quantity 2
then price 12 quantity 1 yield the single line
`⟨"Pizza", 12, 3⟩` on an initially empty cart. -/
theorem C8_add_item_same_name_witness :
    ∃ line : CartLine,
      (foldAdds "Pizza" [(10, 2), (12, 1)] ⟨[]⟩).items = ([] : List CartLine) ++ [line] ∧
      line.name = "Pizza" ∧
      line.quantity = ([(10, 2), (12, 1)].map (Prod.snd (α := Rat) (β := Nat))).sum ∧
      line.unit_price = ([(10, 2), (12, 1)].map (Prod.fst (α := Rat) (β := Nat))).getLastD 0 ∧
      line.line_subtotal =
        (([(10, 2), (12, 1)].map (Prod.fst (α := Rat) (β := Nat))).getLastD 0) *
          ((([(10, 2), (12, 1)].map (Prod.snd (α := Rat) (β := Nat))).sum : Nat) : Rat) ∧
      (foldAdds "Pizza" [(10, 2), (12, 1)] ⟨[]⟩).items.filter
        (fun x => x.name = "Pizza") = [line] :=
  C8_add_item_same_name "Pizza" ⟨[]⟩ [(10, 2), (12, 1)] (by decide) (by simp)
    (by decide) (by decide)
